import Mathlib

/-!
# DDL resolution and routing of the syncer (`syncer/ddl.go`, `syncer/status.go`)

A shallow embedding of `trimCtrlChars`, `resolveDDLSQL`, `genDDLSQL`, `notNeedRoute`,
`findLastWord`, `findTableDefineIndex`, `genTableName` and `parserDDLTableNames` of `ddl.go`
and of the method `Status` of `status.go`.

Conventions of the embedding.

* A Go `string` is a Lean `String`, read as its sequence of code points. The code only ever
  compares single elements against ASCII characters and cuts a string right after a space or
  right before a parenthesis, so on well-formed UTF-8 text byte offsets and code point offsets
  cut the same pieces.
* A Go function returning `(value, error)` that may also fault at run time (index out of range,
  slice bounds out of range) returns `Except Failure value`: `Failure.error msg` is a returned
  error value, `Failure.panic` is the run-time fault.
* The SQL parser and the `regexp` engine are libraries. They, the package-level compiled
  patterns, and the helpers of `syncer/ast.go` are collected in `Env` and every function
  that calls them takes the `Env` as its first argument.
* Pointers that the parser always fills (`Table`, `OldTable`, `NewTable` of a rename statement,
  the elements of the slices) are values; pointers the code tests against `nil`
  (`ReferTable`, `AlterTableSpec.NewTable`) are `Option`s.
* Calls to the logger are left out: they do not change any returned value.
-/

namespace Syncer

/-! ## Data model -/

/-- Case-insensitive string of the parser's `model.CIStr`: `O` is the original text,
`L` its lower-case form. -/
structure CIStr where
  O : String
  L : String
  deriving DecidableEq, Repr

/-- The parser's `ast.TableName`, restricted to the fields the syncer reads. -/
structure TableName where
  Schema : CIStr
  Name : CIStr
  deriving DecidableEq, Repr

/-- The parser's `ast.AlterTableSpec`. `NewTable` is the rename-to target (`nil` when the
clause does not carry one); `Detail` stands for all the remaining fields of the clause,
which `ddl.go` never inspects. -/
structure AlterTableSpec where
  NewTable : Option TableName
  Detail : String
  deriving DecidableEq, Repr

/-- The parser's `ast.TableToTable`: one pair of a `RENAME TABLE` statement. -/
structure TableToTable where
  OldTable : TableName
  NewTable : TableName
  deriving DecidableEq, Repr

/-- The parser's `ast.AlterTableStmt`. -/
structure AlterTableStmt where
  Table : TableName
  Specs : List AlterTableSpec
  deriving DecidableEq, Repr

/-- The statements of the parser's `ast` package, by dynamic type. `OtherDDLStmt` is any
statement that implements `ast.DDLNode` and is none of the nine kinds named in `ddl.go`;
`NonDDLStmt` is any statement that does not implement `ast.DDLNode`. -/
inductive StmtNode where
  | CreateDatabaseStmt (Name : String)
  | DropDatabaseStmt (Name : String)
  | CreateTableStmt (Table : TableName) (ReferTable : Option TableName)
  | DropTableStmt (IfExists : Bool) (Tables : List TableName)
  | TruncateTableStmt (Table : TableName)
  | AlterTableStmt (v : AlterTableStmt)
  | RenameTableStmt (OldTable NewTable : TableName) (TableToTables : List TableToTable)
  | CreateIndexStmt (Table : TableName)
  | DropIndexStmt (Table : TableName)
  | OtherDDLStmt (Text : String)
  | NonDDLStmt (Text : String)
  deriving DecidableEq, Repr

/-- The type assertion `stmt.(ast.DDLNode)`. -/
def StmtNode.isDDL : StmtNode → Bool
  | .NonDDLStmt _ => false
  | _ => true

/-- The type assertion `stmt.(*ast.CreateDatabaseStmt)`. -/
def StmtNode.isCreateDatabase : StmtNode → Bool
  | .CreateDatabaseStmt _ => true
  | _ => false

/-- The routing identifier `filter.Table`. -/
structure Table where
  Schema : String
  Name : String
  deriving DecidableEq, Repr

/-- How a call ends when it does not return a value. -/
inductive Failure where
  | error (msg : String)
  | panic
  deriving DecidableEq, Repr

/-- A compiled pattern of Go's `regexp` package, by the two methods `ddl.go` calls. -/
structure Regexp where
  FindString : String → String
  ReplaceAllString : String → String → String

/-- Everything `ddl.go` uses and does not define: the parser, the helpers of
`syncer/ast.go` and the package-level patterns. -/
structure Env where
  /-- `parser.New().Parse(sql, "", "")`: the statements, or the parse error's text. -/
  Parse : String → Except String (List StmtNode)
  /-- `parser.New().ParseOneStmt(sql, "", "")`. -/
  ParseOneStmt : String → Except String StmtNode
  /-- `tableNameToSQL` of `syncer/ast.go`. -/
  tableNameToSQL : TableName → String
  /-- The call `alterTableStmtToSQL(stmt, newTable)` of `syncer/ast.go`, where `newTable` is a
  pointer: the statements the call returns, and the value it leaves in `*newTable`. -/
  alterTableStmtToSQL : AlterTableStmt → TableName → List String × TableName
  createDatabaseRegex : Regexp
  dropDatabaseRegex : Regexp
  createTableRegex : Regexp
  createTableLikeRegex : Regexp
  dropTableRegex : Regexp
  alterTableRegex : Regexp
  createIndexDDLRegex : Regexp
  dropIndexDDLRegex : Regexp

/-! ## `trimCtrlChars` -/

/-- The predicate `f` of `trimCtrlChars`: `r < 32 || r == 127`. -/
def isCtrlChar (r : Char) : Bool :=
  decide (r.toNat < 32) || decide (r.toNat = 127)

/-- Go's `strings.TrimFunc(s, f)` on the code points of `s`:
`TrimRightFunc(TrimLeftFunc(s, f), f)`. -/
def trimFunc (f : Char → Bool) (s : List Char) : List Char :=
  (((s.dropWhile f).reverse).dropWhile f).reverse

/-- Function `trimCtrlChars` of `ddl.go`. -/
def trimCtrlChars (s : String) : String :=
  String.mk (trimFunc isCtrlChar s.data)

/-! ## `resolveDDLSQL` -/

/-- The body of the `DROP TABLE` loop of `resolveDDLSQL`: the statement for one table,
`ex` being `"IF EXISTS "` or empty. -/
def dropTableSQL (ex : String) (t : TableName) : String :=
  let db := if t.Schema.O ≠ "" then "`" ++ t.Schema.O ++ "`." else ""
  "DROP TABLE " ++ ex ++ db ++ "`" ++ t.Name.O ++ "`"

/-- The body of the `RENAME TABLE` loop of `resolveDDLSQL`. -/
def renameTableSQL (env : Env) (t2t : TableToTable) : String :=
  "RENAME TABLE " ++ env.tableNameToSQL t2t.OldTable ++ " TO " ++ env.tableNameToSQL t2t.NewTable

/-- The Go slice expression `s[i : i+1]` for `i` in range. -/
def sliceOne {α : Type} (s : List α) (i : Nat) : List α :=
  (s.drop i).take 1

/-- Function `resolveDDLSQL` of `ddl.go`. The result is the pair `(sqls, err)`; `none` is
the `nil` error. The three loops append to `sqls` one iteration at a time. In the
`ALTER TABLE` loop the one `newTable` that is allocated before the loop is handed to every
call of `alterTableStmtToSQL`, so the loop carries its value from call to call. -/
def resolveDDLSQL (env : Env) (sql : String) : List String × Option String :=
  let sql := trimCtrlChars sql
  match env.Parse sql with
  | .error err => ([sql], some ("error while parsing sql: " ++ sql ++ ", err:" ++ err))
  | .ok [] => ([], none)
  | .ok (stmt :: _) =>
    if !stmt.isDDL then ([], none)
    else
      match stmt with
      | .DropTableStmt ifExists tables =>
        let ex := if ifExists then "IF EXISTS " else ""
        (tables.foldl (fun sqls t => sqls ++ [dropTableSQL ex t]) [], none)
      | .AlterTableStmt v =>
        let tempSpecs := v.Specs
        let newTable : TableName := ⟨⟨"", ""⟩, ⟨"", ""⟩⟩
        (((List.range tempSpecs.length).foldl
          (fun (acc : List String × TableName) i =>
            let splitted :=
              env.alterTableStmtToSQL { v with Specs := sliceOne tempSpecs i } acc.2
            (acc.1 ++ splitted.1, splitted.2))
          ([], newTable)).1, none)
      | .RenameTableStmt _ _ tableToTables =>
        (tableToTables.foldl (fun sqls t2t => sqls ++ [renameTableSQL env t2t]) [], none)
      | _ => ([sql], none)

/-- The Go index expression `s[i]`: a fault when `i` is out of range. -/
def indexAt {α : Type} (s : List α) (i : Int) : Except Failure α :=
  if i < 0 then .error .panic
  else
    match s[i.toNat]? with
    | some x => .ok x
    | none => .error .panic

/-- The Go slice expression `s[:index]` on a string: a fault unless `0 ≤ index ≤ len(s)`. -/
def sliceTo (s : String) (index : Int) : Except Failure String :=
  if 0 ≤ index ∧ index ≤ (s.length : Int) then .ok (String.mk (s.data.take index.toNat))
  else .error .panic

/-- The Go slice expression `s[index:]` on a string: a fault unless `0 ≤ index ≤ len(s)`. -/
def sliceFrom (s : String) (index : Int) : Except Failure String :=
  if 0 ≤ index ∧ index ≤ (s.length : Int) then .ok (String.mk (s.data.drop index.toNat))
  else .error .panic

/-- The loop of `notNeedRoute`, at position `index` with the origin names from `index` on
still to visit. `targetTableNames[index]` faults when the target list is too short. -/
def notNeedRoute.loop (targetTableNames : List Table) : Nat → List Table → Except Failure Bool
  | _, [] => .ok true
  | index, originTableName :: rest =>
    match indexAt targetTableNames (index : Int) with
    | .error e => .error e
    | .ok targetTableName =>
      if originTableName.Schema ≠ targetTableName.Schema then .ok false
      else if originTableName.Name ≠ targetTableName.Name then .ok false
      else notNeedRoute.loop targetTableNames (index + 1) rest

/-- Function `notNeedRoute` of `ddl.go`. -/
def notNeedRoute (originTableNames targetTableNames : List Table) : Except Failure Bool :=
  notNeedRoute.loop targetTableNames 0 originTableNames

/-- First loop of `findLastWord`, entered with `index = k - 1`:
`for index >= 0 && literal[index] == ' ' { index-- }`. Returns the final `index`. -/
def findLastWord.skipSpaces (literal : List Char) : Nat → Except Failure Int
  | 0 => .ok (-1)
  | k + 1 =>
    match indexAt literal (k : Int) with
    | .error e => .error e
    | .ok c => if c = ' ' then findLastWord.skipSpaces literal k else .ok (k : Int)

/-- Second loop of `findLastWord`, entered with `index = k - 1`:
`for index >= 0 { if literal[index-1] == ' ' { return index }; index-- }; return index`. -/
def findLastWord.scan (literal : List Char) : Nat → Except Failure Int
  | 0 => .ok (-1)
  | k + 1 =>
    match indexAt literal ((k : Int) - 1) with
    | .error e => .error e
    | .ok c => if c = ' ' then .ok (k : Int) else findLastWord.scan literal k

/-- Function `findLastWord` of `ddl.go`. -/
def findLastWord (literal : String) : Except Failure Int :=
  match findLastWord.skipSpaces literal.data literal.length with
  | .error e => .error e
  | .ok index => findLastWord.scan literal.data (index + 1).toNat

/-- Function `findTableDefineIndex` of `ddl.go`: the text from the first `(` on, or the
empty string. -/
def findTableDefineIndex (literal : String) : String :=
  String.mk (literal.data.dropWhile (fun c => c ≠ '('))

/-- Function `genTableName` of `ddl.go`. -/
def genTableName (schema : String) (table : String) : Table :=
  { Schema := schema, Name := table }

/-- The closure `addUseDatabase` of `genDDLSQL`. -/
def addUseDatabase (sql : String) (dbName : String) : String :=
  "USE `" ++ dbName ++ "`; " ++ sql ++ ";"

/-- The text "`schema`.`name`" that the rewrite path prints for a target identifier. -/
def quoted (t : Table) : String :=
  "`" ++ t.Schema ++ "`.`" ++ t.Name ++ "`"

/-- The rewrite of `genDDLSQL` for the two database kinds: the matched prefix up to its
last word, then the quoted target schema. -/
def genDDLSQL.rewriteDatabase (re : Regexp) (sql : String) (targetTableNames : List Table) :
    Except Failure String := do
  let sqlPrefix := re.FindString sql
  let index ← findLastWord sqlPrefix
  let head ← sliceTo sqlPrefix index
  let target0 ← indexAt targetTableNames 0
  return re.ReplaceAllString sql (head ++ "`" ++ target0.Schema ++ "`")

/-- The `*ast.CreateTableStmt` case of `genDDLSQL`; the result is the new value of `sql`. -/
def genDDLSQL.rewriteCreateTable (env : Env) (sql : String)
    (originTableNames targetTableNames : List Table) : Except Failure String := do
  let sql ←
    if originTableNames.length = 2 then do
      let sqlPrefix := env.createTableLikeRegex.FindString sql
      let index ← findLastWord sqlPrefix
      let last ← indexAt sqlPrefix.data ((sqlPrefix.length : Int) - 1)
      let endChars := if last = ')' then ")" else ""
      let head ← sliceTo sqlPrefix index
      let target1 ← indexAt targetTableNames 1
      pure (env.createTableLikeRegex.ReplaceAllString sql (head ++ quoted target1 ++ endChars))
    else pure sql
  let sqlPrefix := env.createTableRegex.FindString sql
  let index ← findLastWord sqlPrefix
  let tail ← sliceFrom sqlPrefix index
  let endChars := findTableDefineIndex tail
  let head ← sliceTo sqlPrefix index
  let target0 ← indexAt targetTableNames 0
  return env.createTableRegex.ReplaceAllString sql (head ++ quoted target0 ++ endChars)

/-- The `*ast.DropTableStmt` case of `genDDLSQL`; the result is the new value of `sql`. -/
def genDDLSQL.rewriteDropTable (env : Env) (sql : String) (targetTableNames : List Table) :
    Except Failure String := do
  let sqlPrefix := env.dropTableRegex.FindString sql
  let index ← findLastWord sqlPrefix
  let head ← sliceTo sqlPrefix index
  let target0 ← indexAt targetTableNames 0
  return env.dropTableRegex.ReplaceAllString sql (head ++ quoted target0)

/-- The `*ast.AlterTableStmt` case of `genDDLSQL`; the result is the new value of `sql`. -/
def genDDLSQL.rewriteAlterTable (env : Env) (sql : String)
    (originTableNames targetTableNames : List Table) : Except Failure String := do
  let sql ←
    if originTableNames.length = 2 then do
      let index ← findLastWord sql
      let head ← sliceTo sql index
      let target1 ← indexAt targetTableNames 1
      pure (head ++ quoted target1)
    else pure sql
  let target0 ← indexAt targetTableNames 0
  return env.alterTableRegex.ReplaceAllString sql ("ALTER TABLE " ++ quoted target0)

/-- The `switch stmt.(type)` of `genDDLSQL`, entered when some identifier has to be routed. -/
def genDDLSQL.rewrite (env : Env) (stmt : StmtNode) (sql : String)
    (originTableNames targetTableNames : List Table) : Except Failure String :=
  match stmt with
  | .CreateDatabaseStmt _ =>
    genDDLSQL.rewriteDatabase env.createDatabaseRegex sql targetTableNames
  | .DropDatabaseStmt _ =>
    genDDLSQL.rewriteDatabase env.dropDatabaseRegex sql targetTableNames
  | .CreateTableStmt _ _ => do
    let sql ← genDDLSQL.rewriteCreateTable env sql originTableNames targetTableNames
    let target0 ← indexAt targetTableNames 0
    return addUseDatabase sql target0.Schema
  | .DropTableStmt _ _ => do
    let sql ← genDDLSQL.rewriteDropTable env sql targetTableNames
    let target0 ← indexAt targetTableNames 0
    return addUseDatabase sql target0.Schema
  | .TruncateTableStmt _ => do
    let target0 ← indexAt targetTableNames 0
    let sql := "TRUNCATE TABLE " ++ quoted target0
    return addUseDatabase sql target0.Schema
  | .AlterTableStmt _ => do
    let sql ← genDDLSQL.rewriteAlterTable env sql originTableNames targetTableNames
    let target0 ← indexAt targetTableNames 0
    return addUseDatabase sql target0.Schema
  | .RenameTableStmt _ _ _ => do
    let target0 ← indexAt targetTableNames 0
    let target1 ← indexAt targetTableNames 1
    return "RENAME TABLE " ++ quoted target0 ++ " TO " ++ quoted target1
  | .CreateIndexStmt _ => do
    let target0 ← indexAt targetTableNames 0
    let sql := env.createIndexDDLRegex.ReplaceAllString sql ("ON " ++ quoted target0 ++ " (")
    return addUseDatabase sql target0.Schema
  | .DropIndexStmt _ => do
    let target0 ← indexAt targetTableNames 0
    let sql := env.dropIndexDDLRegex.ReplaceAllString sql ("ON " ++ quoted target0)
    return addUseDatabase sql target0.Schema
  | _ => .error (.error ("unkown type ddl " ++ sql))

/-- Function `genDDLSQL` of `ddl.go`. -/
def genDDLSQL (env : Env) (sql : String) (originTableNames targetTableNames : List Table) :
    Except Failure String :=
  match env.ParseOneStmt sql with
  | .error err => .error (.error err)
  | .ok stmt =>
    match notNeedRoute originTableNames targetTableNames with
    | .error e => .error e
    | .ok true =>
      if stmt.isCreateDatabase then .ok (sql ++ ";")
      else
        match indexAt originTableNames 0 with
        | .error e => .error e
        | .ok origin0 => .ok (addUseDatabase sql origin0.Schema)
    | .ok false => genDDLSQL.rewrite env stmt sql originTableNames targetTableNames

/-! ## `parserDDLTableNames` -/

/-- The identifier `genTableName(t.Schema.L, t.Name.L)` of a parsed table name. -/
def tableOf (t : TableName) : Table :=
  genTableName t.Schema.L t.Name.L

/-- Function `parserDDLTableNames` of `ddl.go`. On every error return the Go code returns
the still empty `res` next to the error, so the error alone is kept. -/
def parserDDLTableNames (env : Env) (sql : String) : Except Failure (List Table) :=
  match env.ParseOneStmt sql with
  | .error err => .error (.error err)
  | .ok stmt =>
    match stmt with
    | .CreateDatabaseStmt name => .ok [genTableName name ""]
    | .DropDatabaseStmt name => .ok [genTableName name ""]
    | .CreateTableStmt table referTable =>
      let res := [tableOf table]
      match referTable with
      | some refer => .ok (res ++ [tableOf refer])
      | none => .ok res
    | .DropTableStmt _ tables =>
      if tables.length ≠ 1 then
        .error (.error "drop table with multiple tables, may resovle ddl sql failed")
      else
        match indexAt tables 0 with
        | .error e => .error e
        | .ok table0 => .ok [tableOf table0]
    | .TruncateTableStmt table => .ok [tableOf table]
    | .AlterTableStmt v =>
      let res := [tableOf v.Table]
      match indexAt v.Specs 0 with
      | .error e => .error e
      | .ok spec0 =>
        match spec0.NewTable with
        | some newTable => .ok (res ++ [tableOf newTable])
        | none => .ok res
    | .RenameTableStmt oldTable newTable _ => .ok [tableOf oldTable, tableOf newTable]
    | .CreateIndexStmt table => .ok [tableOf table]
    | .DropIndexStmt table => .ok [tableOf table]
    | _ => .error (.error ("unkown type ddl " ++ sql))

/-! ## `Status` (`syncer/status.go`) -/

/-- The `mysql.Position` of the go-mysql library: a binlog file name and an offset. Its zero
value has the empty name and offset 0. -/
structure Position where
  Name : String
  Pos : Nat
  deriving DecidableEq, Repr

/-- Method `String` of `mysql.Position` in the go-mysql library:
`fmt.Sprintf("(%s, %d)", p.Name, p.Pos)`. -/
def Position.String (p : Position) : String :=
  "(" ++ p.Name ++ ", " ++ toString p.Pos ++ ")"

/-- The type `GTIDSet` of package `syncer`. It is declared outside these sources; in the
upstream repository it is an interface with a method `String`. `nil` is the nil interface
value, which is the zero value of a variable of the type (`var masterGTIDSet GTIDSet`);
`set text` is a GTID set, given by the text its method `String` returns. -/
inductive GTIDSet where
  | nil
  | set (text : String)
  deriving DecidableEq, Repr

/-- The method call `gs.String()` on a value of the interface type: a run-time fault on the
nil interface value. -/
def GTIDSet.String : GTIDSet → Except Failure String
  | .nil => .error .panic
  | .set text => .ok text

set_option linter.dupNamespace false

/-- The fields and methods of `Syncer` that `Status` reads. `count` is what `s.count.Get()`
returns; `totalTps n` is what the call number `n` (from 0) of `s.totalTps.Get()` returns
during the call of `Status`: the gauge belongs to the sync loop, which may update it between
two calls. `getMasterStatus` is the outcome the master-status probe has when it is invoked
(a fault included), `metaPos` and `metaGTID` are what `s.meta.Pos()` and `s.meta.GTID()`
return. -/
structure Syncer where
  count : Int
  totalTps : Nat → Int
  lackOfReplClientPrivilege : Bool
  getMasterStatus : Except Failure (Position × GTIDSet × Option String)
  metaPos : Position
  metaGTID : GTIDSet × Option String

/-- The message `pb.SyncStatus`, by the fields `Status` fills. -/
structure SyncStatus where
  TotalEvents : Int
  TotalTps : Int
  RecentTps : Int
  MasterBinlog : String
  MasterBinlogGtid : String
  SyncerBinlog : String
  SyncerBinlogGtid : String
  deriving DecidableEq, Repr

/-- Method `Status` of `Syncer` in `status.go`. The errors of `getMasterStatus` and of
`meta.GTID` are discarded, as in the source; `totalTps` and `tps` are the first and the
second call of `s.totalTps.Get()`. -/
def Syncer.Status (s : Syncer) : Except Failure SyncStatus := do
  let total := s.count
  let totalTps := s.totalTps 0
  let tps := s.totalTps 1
  let master ←
    if !s.lackOfReplClientPrivilege then
      match s.getMasterStatus with
      | .error e => Except.error e
      | .ok (pos, gtidSet, _) => Except.ok (pos, gtidSet)
    else Except.ok (({ Name := "", Pos := 0 } : Position), GTIDSet.nil)
  let masterPos := master.1
  let masterGTIDSet := master.2
  let syncerPos := s.metaPos
  let syncerGTIDSet := s.metaGTID.1
  let masterBinlogGtid ← masterGTIDSet.String
  let syncerBinlogGtid ← syncerGTIDSet.String
  return {
    TotalEvents := total
    TotalTps := totalTps
    RecentTps := tps
    MasterBinlog := masterPos.String
    MasterBinlogGtid := masterBinlogGtid
    SyncerBinlog := syncerPos.String
    SyncerBinlogGtid := syncerBinlogGtid }

/-! ## Concrete environment

The statements below are closed facts at concrete inputs. They are evaluated in an environment
whose parser knows a handful of texts and gives for each the tree that the TiDB parser builds
for it. -/

/-- The table name `schema.name` as the parser builds it from lower-case text. -/
def mkTableName (schema name : String) : TableName :=
  ⟨⟨schema, schema⟩, ⟨name, name⟩⟩

/-- A pattern that matches nowhere in the texts it is given. -/
def Regexp.noMatch : Regexp :=
  { FindString := fun _ => "", ReplaceAllString := fun src _ => src }

/-- The trees of the sample statements. -/
def sampleTree (sql : String) : Option StmtNode :=
  if sql = "DROP TABLE IF EXISTS test.a, test2.b" then
    some (.DropTableStmt true [mkTableName "test" "a", mkTableName "test2" "b"])
  else if sql = "DROP TABLE test.a" then
    some (.DropTableStmt false [mkTableName "test" "a"])
  else if sql = "DROP TABLE `test`.`a`" then
    some (.DropTableStmt false [mkTableName "test" "a"])
  else if sql = "ALTER TABLE test.a RENAME TO test.b, ADD COLUMN c INT" then
    some (.AlterTableStmt ⟨mkTableName "test" "a",
      [⟨some (mkTableName "test" "b"), "RENAME TO `test`.`b`"⟩, ⟨none, "ADD COLUMN c INT"⟩]⟩)
  else if sql = "ALTER TABLE test.a RENAME TO test.b" then
    some (.AlterTableStmt ⟨mkTableName "test" "a",
      [⟨some (mkTableName "test" "b"), "RENAME TO `test`.`b`"⟩]⟩)
  else if sql = "ALTER TABLE test.a ADD COLUMN c INT" then
    some (.AlterTableStmt ⟨mkTableName "test" "a", [⟨none, "ADD COLUMN c INT"⟩]⟩)
  else if sql = "CREATE DATABASE d" then some (.CreateDatabaseStmt "d")
  else if sql = "DROP DATABASE d" then some (.DropDatabaseStmt "d")
  else if sql = "CREATE TABLE s.t (id INT)" then
    some (.CreateTableStmt (mkTableName "s" "t") none)
  else if sql = "CREATE TABLE a.t1 LIKE a.ref" then
    some (.CreateTableStmt (mkTableName "a" "t1") (some (mkTableName "a" "ref")))
  else if sql = "TRUNCATE TABLE a.t" then some (.TruncateTableStmt (mkTableName "a" "t"))
  else if sql = "RENAME TABLE a.t1 TO a.t2" then
    some (.RenameTableStmt (mkTableName "a" "t1") (mkTableName "a" "t2")
      [⟨mkTableName "a" "t1", mkTableName "a" "t2"⟩])
  else if sql = "CREATE INDEX i ON a.t (c)" then some (.CreateIndexStmt (mkTableName "a" "t"))
  else if sql = "DROP INDEX i ON a.t" then some (.DropIndexStmt (mkTableName "a" "t"))
  else if sql = "SELECT 1" then some (.NonDDLStmt "SELECT 1")
  else if sql = "CREATE VIEW v AS SELECT 1" then
    some (.OtherDDLStmt "CREATE VIEW v AS SELECT 1")
  else if sql = "TRUNCATE TABLE A.T" then
    some (.TruncateTableStmt ⟨⟨"A", "a"⟩, ⟨"T", "t"⟩⟩)
  else none

/-- The helper `alterTableStmtToSQL` as `syncer/ast.go` of the upstream repository writes
it, the text of a clause being its `Detail`: the statements are printed against `*newTable`
when an earlier call stored a table name there and against the table of the statement
otherwise, and a rename-to clause stores its target in `*newTable`. -/
def sampleAlterTableStmtToSQL (stmt : AlterTableStmt) (newTable : TableName) :
    List String × TableName :=
  let table := if newTable.Name.O ≠ "" then newTable else stmt.Table
  let head := "ALTER TABLE `" ++ table.Schema.O ++ "`.`" ++ table.Name.O ++ "` "
  (stmt.Specs.map (fun spec => head ++ spec.Detail),
    stmt.Specs.foldl
      (fun current spec =>
        match spec.NewTable with
        | some target => target
        | none => current)
      newTable)

/-- The sample environment: the sample parser, table names printed as
`[schema.]name` in backquotes, the upstream helper for ALTER TABLE, patterns that do not
match. -/
def sampleEnv : Env where
  Parse := fun sql =>
    match sampleTree sql with
    | some stmt => .ok [stmt]
    | none => .error "syntax error"
  ParseOneStmt := fun sql =>
    match sampleTree sql with
    | some stmt => .ok stmt
    | none => .error "syntax error"
  tableNameToSQL := fun t =>
    (if t.Schema.O ≠ "" then "`" ++ t.Schema.O ++ "`." else "") ++ "`" ++ t.Name.O ++ "`"
  alterTableStmtToSQL := sampleAlterTableStmtToSQL
  createDatabaseRegex := Regexp.noMatch
  dropDatabaseRegex := Regexp.noMatch
  createTableRegex := Regexp.noMatch
  createTableLikeRegex := Regexp.noMatch
  dropTableRegex := Regexp.noMatch
  alterTableRegex := Regexp.noMatch
  createIndexDDLRegex := Regexp.noMatch
  dropIndexDDLRegex := Regexp.noMatch

/-- An environment whose multi-statement parser finds no statement in any text (a text that
holds only a comment, say). -/
def noStmtEnv : Env :=
  { sampleEnv with Parse := fun _ => .ok [] }

/-- The pattern `createIndexDDLRegex` on the one text `CREATE INDEX i ON a.t (c)`: it matches
the clause `ON a.t (`. -/
def sampleIndexRegex : Regexp where
  FindString := fun src => if src = "CREATE INDEX i ON a.t (c)" then "ON a.t (" else ""
  ReplaceAllString := fun src repl =>
    if src = "CREATE INDEX i ON a.t (c)" then "CREATE INDEX i " ++ repl ++ "c)" else src

/-- The sample environment with the index pattern that matches the sample text. -/
def routeEnv : Env :=
  { sampleEnv with createIndexDDLRegex := sampleIndexRegex }

/-- A syncer that lacks the replication-client privilege and whose master-status probe
faults when it is invoked. -/
def sampleSyncer : Syncer where
  count := 10
  totalTps := fun _ => 5
  lackOfReplClientPrivilege := true
  getMasterStatus := .error .panic
  metaPos := { Name := "mysql-bin.000001", Pos := 4 }
  metaGTID := (.set "uuid:1-5", none)

/-- A syncer that holds the privilege, whose probe answers, and whose gauge `totalTps` stays
at 5 during the call. -/
def steadySyncer : Syncer where
  count := 10
  totalTps := fun _ => 5
  lackOfReplClientPrivilege := false
  getMasterStatus := .ok ({ Name := "mysql-bin.000002", Pos := 120 }, .set "uuid:1-9", none)
  metaPos := { Name := "mysql-bin.000001", Pos := 4 }
  metaGTID := (.set "uuid:1-5", none)

/-- The same syncer with the gauge `totalTps` updated from 5 to 6 between the two reads. -/
def busySyncer : Syncer :=
  { steadySyncer with totalTps := fun n => if n = 0 then 5 else 6 }

/-! ## Lemmas on the loops -/

/-- A loop that appends one element per iteration builds the mapped list. -/
theorem foldl_append_singleton {α β : Type} (f : α → β) (l : List α) (init : List β) :
    l.foldl (fun acc x => acc ++ [f x]) init = init ++ l.map f := by
  induction l generalizing init with
  | nil => simp
  | cons x xs ih => simp [ih]

/-- Indexing just past a prefix gives the element that follows it. -/
theorem indexAt_append_cons {α : Type} (pre : List α) (x : α) (rest : List α) :
    indexAt (pre ++ x :: rest) (pre.length : Int) = .ok x := by
  have h0 : ¬ ((pre.length : Int) < 0) := by omega
  have h1 : (pre ++ x :: rest)[pre.length]? = some x := by
    rw [List.getElem?_append_right (Nat.le_refl _)]
    simp
  simp only [indexAt, h0, if_false, Int.toNat_ofNat, h1]

/-- Indexing at the length of a list faults. -/
theorem indexAt_length {α : Type} (l : List α) :
    indexAt l (l.length : Int) = .error .panic := by
  have h0 : ¬ ((l.length : Int) < 0) := by omega
  simp [indexAt, h0]

/-- The loop of `notNeedRoute` runs to the end when the origin names still to visit are the
target names at the same positions, whatever target names follow them. -/
theorem notNeedRoute_loop_agree (rest pre extra : List Table) :
    notNeedRoute.loop (pre ++ (rest ++ extra)) pre.length rest = .ok true := by
  induction rest generalizing pre with
  | nil => simp [notNeedRoute.loop]
  | cons x xs ih =>
    have h := ih (pre ++ [x])
    simp only [List.append_assoc, List.singleton_append, List.length_append,
      List.length_singleton] at h
    simp only [notNeedRoute.loop, List.cons_append, indexAt_append_cons]
    simpa using h

/-- The loop of `notNeedRoute` faults when the origin names agree with the target names up to
the end of the target list and go on after it. -/
theorem notNeedRoute_loop_surplus (rest pre : List Table) (e : Table) (extra : List Table) :
    notNeedRoute.loop (pre ++ rest) pre.length (rest ++ e :: extra) = .error .panic := by
  induction rest generalizing pre with
  | nil =>
    have h := indexAt_length pre
    simp [notNeedRoute.loop, h]
  | cons x xs ih =>
    have h := ih (pre ++ [x])
    simp only [List.append_assoc, List.singleton_append, List.length_append,
      List.length_singleton] at h
    simp only [notNeedRoute.loop, List.cons_append, indexAt_append_cons]
    simpa using h

/-- A list is routed to itself without any rewrite. -/
theorem notNeedRoute_self (names : List Table) : notNeedRoute names names = .ok true := by
  have h := notNeedRoute_loop_agree names [] []
  simpa [notNeedRoute] using h

/-- Every list of identifiers that `parserDDLTableNames` returns has a first element. -/
theorem parserDDLTableNames_ne_nil (env : Env) (sql : String) (ids : List Table)
    (h : parserDDLTableNames env sql = .ok ids) : ∃ o rest, ids = o :: rest := by
  unfold parserDDLTableNames at h
  cases hparse : env.ParseOneStmt sql with
  | error err => simp [hparse] at h
  | ok stmt =>
    rw [hparse] at h
    cases stmt with
    | CreateTableStmt table referTable =>
      cases referTable <;> simp at h <;> exact ⟨_, _, h.symm⟩
    | DropTableStmt ifExists tables =>
      cases tables with
      | nil => simp at h
      | cons t ts =>
        cases ts with
        | nil =>
          simp [indexAt] at h
          exact ⟨_, _, h.symm⟩
        | cons t2 ts2 => simp at h
    | AlterTableStmt v =>
      obtain ⟨table, specs⟩ := v
      cases specs with
      | nil => simp [indexAt] at h
      | cons spec0 rest =>
        cases hn : spec0.NewTable <;> simp [indexAt, hn] at h <;> exact ⟨_, _, h.symm⟩
    | OtherDDLStmt text => simp at h
    | NonDDLStmt text => simp at h
    | _ =>
      simp at h
      exact ⟨_, _, h.symm⟩

/-- The loop of `notNeedRoute` over lists of the same length answers whether the origin names
still to visit are the target names at the same positions. -/
theorem notNeedRoute_loop_same_length (os ts pre : List Table) (hlen : os.length = ts.length) :
    notNeedRoute.loop (pre ++ ts) pre.length os = .ok (decide (os = ts)) := by
  induction os generalizing ts pre with
  | nil =>
    cases ts with
    | nil => simp [notNeedRoute.loop]
    | cons t ts => simp at hlen
  | cons o os ih =>
    cases ts with
    | nil => simp at hlen
    | cons t ts =>
      have hlen2 : os.length = ts.length := by simpa using hlen
      have h := ih ts (pre ++ [t]) hlen2
      simp only [List.append_assoc, List.singleton_append, List.length_append,
        List.length_singleton] at h
      simp only [notNeedRoute.loop, indexAt_append_cons]
      obtain ⟨os1, on1⟩ := o
      obtain ⟨ts1, tn1⟩ := t
      by_cases h1 : os1 = ts1
      · by_cases h2 : on1 = tn1
        · subst h1 h2
          simpa using h
        · simp [h1, h2]
      · simp [h1]

/-- On lists of the same length `notNeedRoute` answers whether the two lists are equal. -/
theorem notNeedRoute_same_length (origin target : List Table)
    (hlen : origin.length = target.length) :
    notNeedRoute origin target = .ok (decide (origin = target)) := by
  have h := notNeedRoute_loop_same_length origin target [] hlen
  simpa [notNeedRoute] using h

/-! ## Lemmas on `trimFunc` and `findLastWord` -/

/-- Trimming is dropping from the left, then dropping from the right. -/
theorem trimFunc_eq_rdropWhile (f : Char → Bool) (l : List Char) :
    trimFunc f l = (l.dropWhile f).rdropWhile f := rfl

/-- A list is what remains after dropping from the right, followed by what was dropped. -/
theorem rdropWhile_append_rtakeWhile (f : Char → Bool) (l : List Char) :
    l.rdropWhile f ++ l.rtakeWhile f = l := by
  have h : (l.reverse.takeWhile f ++ l.reverse.dropWhile f).reverse = l := by
    rw [List.takeWhile_append_dropWhile, List.reverse_reverse]
  rw [List.reverse_append] at h
  exact h

/-- A list is its longest prefix satisfying `f`, the trimmed list, and the longest suffix
satisfying `f` of what follows that prefix. -/
theorem trimFunc_decompose (f : Char → Bool) (l : List Char) :
    l = l.takeWhile f ++ trimFunc f l ++ (l.dropWhile f).rtakeWhile f := by
  rw [trimFunc_eq_rdropWhile, List.append_assoc, rdropWhile_append_rtakeWhile,
    List.takeWhile_append_dropWhile]

/-- The trimmed list does not begin with an element satisfying `f`. -/
theorem trimFunc_head (f : Char → Bool) (l : List Char) (c : Char)
    (h : (trimFunc f l).head? = some c) : f c = false := by
  rw [trimFunc_eq_rdropWhile] at h
  obtain ⟨t, ht⟩ := List.rdropWhile_prefix f (l := l.dropWhile f)
  have hd := List.head?_dropWhile_not f l
  cases hr : List.rdropWhile f (List.dropWhile f l) with
  | nil => simp [hr] at h
  | cons x xs =>
    rw [hr] at h ht
    simp at h
    subst h
    rw [← ht] at hd
    simpa using hd

/-- The trimmed list does not end with an element satisfying `f`. -/
theorem trimFunc_getLast (f : Char → Bool) (l : List Char) (c : Char)
    (h : (trimFunc f l).getLast? = some c) : f c = false := by
  rw [trimFunc_eq_rdropWhile] at h
  by_cases hne : List.rdropWhile f (List.dropWhile f l) = []
  · simp [hne] at h
  · have hl := List.rdropWhile_last_not f (l.dropWhile f) hne
    rw [List.getLast?_eq_getLast _ hne] at h
    simp at h
    rw [h] at hl
    simpa using hl

/-- Trimming a trimmed list changes nothing. -/
theorem trimFunc_idempotent (f : Char → Bool) (l : List Char) :
    trimFunc f (trimFunc f l) = trimFunc f l := by
  have hdrop : (trimFunc f l).dropWhile f = trimFunc f l := by
    rw [List.dropWhile_eq_self_iff]
    intro hl
    have hh : (trimFunc f l).head? = some ((trimFunc f l).get ⟨0, hl⟩) := by
      rw [List.head?_eq_getElem?, List.getElem?_eq_getElem hl]
      rfl
    have hc := trimFunc_head f l _ hh
    rw [hc]
    simp
  rw [trimFunc_eq_rdropWhile f (trimFunc f l), hdrop, trimFunc_eq_rdropWhile,
    List.rdropWhile_idempotent]

/-- Indexing at a position that holds an element returns it. -/
theorem indexAt_nat {α : Type} (s : List α) (i : Nat) (x : α) (h : s[i]? = some x) :
    indexAt s (i : Int) = .ok x := by
  have h0 : ¬ ((i : Int) < 0) := by omega
  simp only [indexAt, h0, if_false, Int.toNat_ofNat, h]

/-- The first loop of `findLastWord` walks back over a block of trailing spaces. -/
theorem skipSpaces_trailing (w : List Char) (n k : Nat) (hk : k ≤ n) :
    findLastWord.skipSpaces (w ++ List.replicate n ' ') (w.length + k) =
      findLastWord.skipSpaces (w ++ List.replicate n ' ') w.length := by
  induction k with
  | zero => rfl
  | succ k ih =>
    have hget : (w ++ List.replicate n ' ')[w.length + k]? = some ' ' := by
      rw [List.getElem?_append_right (by omega)]
      simp [List.getElem?_replicate]
      omega
    have hidx := indexAt_nat _ _ _ hget
    rw [← Nat.add_assoc]
    simp only [findLastWord.skipSpaces, hidx, if_true]
    exact ih (by omega)

/-- The first loop of `findLastWord` stops at an element that is not a space. -/
theorem skipSpaces_stop (w : List Char) (c : Char) (rest : List Char) (hc : c ≠ ' ') :
    findLastWord.skipSpaces (w ++ c :: rest) (w.length + 1) = .ok (w.length : Int) := by
  have hget : (w ++ c :: rest)[w.length]? = some c := by
    rw [List.getElem?_append_right (Nat.le_refl _)]
    simp
  have hidx := indexAt_nat _ _ _ hget
  simp only [findLastWord.skipSpaces, hidx, hc, if_false]

/-- The second loop of `findLastWord` faults when no space lies before the position it starts
from: it reaches `index = 0` and reads `literal[-1]`. -/
theorem scan_faults (literal : List Char) (k : Nat) (hk : 0 < k)
    (h : ∀ i, i + 1 < k → ∃ c, literal[i]? = some c ∧ c ≠ ' ') :
    findLastWord.scan literal k = .error .panic := by
  induction k with
  | zero => omega
  | succ k ih =>
    cases k with
    | zero => simp [findLastWord.scan, indexAt]
    | succ j =>
      obtain ⟨c, hc, hne⟩ := h j (by omega)
      have hidx : indexAt literal (((j + 1 : Nat) : Int) - 1) = .ok c := by
        have hcast : (((j + 1 : Nat) : Int) - 1) = (j : Int) := by omega
        rw [hcast]
        exact indexAt_nat _ _ _ hc
      simp only [findLastWord.scan, hidx, hne, if_false]
      exact ih (by omega) (fun i hi => h i (by omega))

/-- The second loop of `findLastWord` returns the position after the space that precedes the
word it starts in. -/
theorem scan_finds (pre word rest : List Char) (hword : ∀ c ∈ word, c ≠ ' ') (j : Nat)
    (hj : j ≤ word.length) :
    findLastWord.scan (pre ++ ' ' :: (word ++ rest)) (pre.length + 1 + j + 1) =
      .ok ((pre.length : Int) + 1) := by
  induction j with
  | zero =>
    have hget : (pre ++ ' ' :: (word ++ rest))[pre.length]? = some ' ' := by
      rw [List.getElem?_append_right (Nat.le_refl _)]
      simp
    have hidx : indexAt (pre ++ ' ' :: (word ++ rest)) (((pre.length + 1 + 0 : Nat) : Int) - 1)
        = .ok ' ' := by
      have hcast : (((pre.length + 1 + 0 : Nat) : Int) - 1) = (pre.length : Int) := by omega
      rw [hcast]
      exact indexAt_nat _ _ _ hget
    simp only [findLastWord.scan, hidx, if_true]
    simp
  | succ j ih =>
    have hjlt : j < word.length := by omega
    have hget : (pre ++ ' ' :: (word ++ rest))[pre.length + 1 + j]? = some word[j] := by
      rw [List.getElem?_append_right (by omega)]
      have : pre.length + 1 + j - pre.length = j + 1 := by omega
      rw [this, List.getElem?_cons_succ, List.getElem?_append_left hjlt,
        List.getElem?_eq_getElem hjlt]
    have hne : word[j] ≠ ' ' := hword _ (List.getElem_mem _)
    have hidx : indexAt (pre ++ ' ' :: (word ++ rest))
        (((pre.length + 1 + (j + 1) : Nat) : Int) - 1) = .ok word[j] := by
      have hcast : (((pre.length + 1 + (j + 1) : Nat) : Int) - 1)
          = ((pre.length + 1 + j : Nat) : Int) := by omega
      rw [hcast]
      exact indexAt_nat _ _ _ hget
    simp only [findLastWord.scan, hidx, hne, if_false]
    exact ih (by omega)

/-- The first loop of `findLastWord` ends on the last element of the last word. -/
theorem skipSpaces_word (w : List Char) (c : Char) (n : Nat) (hc : c ≠ ' ') :
    findLastWord.skipSpaces (w ++ c :: List.replicate n ' ') (w.length + 1 + n) =
      .ok (w.length : Int) := by
  have h1 := skipSpaces_trailing (w ++ [c]) n n (Nat.le_refl _)
  simp only [List.append_assoc, List.singleton_append, List.length_append,
    List.length_singleton] at h1
  rw [h1]
  exact skipSpaces_stop w c _ hc

/-- When a space precedes the last word, `findLastWord` returns the offset of the word: the
offset just after that space, trailing spaces skipped. -/
theorem findLastWord_after_space (pre w : List Char) (c : Char) (n : Nat)
    (hw : ∀ x ∈ w, x ≠ ' ') (hc : c ≠ ' ') :
    findLastWord (String.mk (pre ++ ' ' :: (w ++ c :: List.replicate n ' '))) =
      .ok ((pre.length : Int) + 1) := by
  have hskip := skipSpaces_word (pre ++ ' ' :: w) c n hc
  simp only [List.append_assoc, List.cons_append, List.length_append, List.length_cons] at hskip
  have hscan := scan_finds pre (w ++ [c]) (List.replicate n ' ')
    (by
      intro x hx
      rcases List.mem_append.mp hx with h | h
      · exact hw x h
      · simp at h
        rw [h]
        exact hc) w.length (by simp)
  simp only [List.append_assoc, List.singleton_append] at hscan
  have hlen : (String.mk (pre ++ ' ' :: (w ++ c :: List.replicate n ' '))).length =
      pre.length + (w.length + 1) + 1 + n := by
    simp [String.length]
    omega
  have htoNat : (((pre.length + (w.length + 1) : Nat) : Int) + 1).toNat =
      pre.length + 1 + w.length + 1 := by omega
  simp only [findLastWord, hlen, hskip, htoNat, hscan]

/-- On a literal made of spaces only (the empty literal included) `findLastWord` returns -1. -/
theorem findLastWord_blank (n : Nat) :
    findLastWord (String.mk (List.replicate n ' ')) = .ok (-1) := by
  have h1 := skipSpaces_trailing [] n n (Nat.le_refl _)
  simp only [List.nil_append, List.length_nil, Nat.zero_add] at h1
  have hlen : (String.mk (List.replicate n ' ')).length = n := by simp [String.length]
  simp only [findLastWord, hlen, h1, findLastWord.skipSpaces]
  rfl

/-! ## Claims -/

/-- C1: for every DROP TABLE statement with tables T1..Tn and flag ifExists (the first
statement the parser returns for the trimmed text), `resolveDDLSQL` returns no error and
exactly n statements, the i-th being "DROP TABLE ", then "IF EXISTS " iff ifExists is set,
then the backquoted schema and a dot iff the schema of Ti is non-empty, then the backquoted
name of Ti, in the order of the tables. -/
theorem resolveDDLSQL_dropTable (env : Env) (sql : String) (ifExists : Bool)
    (tables : List TableName) (rest : List StmtNode)
    (hparse : env.Parse (trimCtrlChars sql) = .ok (.DropTableStmt ifExists tables :: rest)) :
    resolveDDLSQL env sql =
        (tables.map (fun t =>
          "DROP TABLE " ++ (if ifExists then "IF EXISTS " else "")
            ++ (if t.Schema.O ≠ "" then "`" ++ t.Schema.O ++ "`." else "")
            ++ "`" ++ t.Name.O ++ "`"), none)
      ∧ (resolveDDLSQL env sql).1.length = tables.length := by
  have h : resolveDDLSQL env sql =
      (tables.map (fun t =>
          "DROP TABLE " ++ (if ifExists then "IF EXISTS " else "")
            ++ (if t.Schema.O ≠ "" then "`" ++ t.Schema.O ++ "`." else "")
            ++ "`" ++ t.Name.O ++ "`"), none) := by
    simp only [resolveDDLSQL, hparse, StmtNode.isDDL, foldl_append_singleton, dropTableSQL]
    simp
  rw [h]
  simp

/-- C1, at `DROP TABLE IF EXISTS test.a, test2.b`: the two statements for `test.a` and
`test2.b`. -/
theorem resolveDDLSQL_dropTable_witness :
    resolveDDLSQL sampleEnv "DROP TABLE IF EXISTS test.a, test2.b" =
      (["DROP TABLE IF EXISTS `test`.`a`", "DROP TABLE IF EXISTS `test2`.`b`"], none) := by
  rw [(resolveDDLSQL_dropTable sampleEnv "DROP TABLE IF EXISTS test.a, test2.b" true
    [mkTableName "test" "a", mkTableName "test2" "b"] [] rfl).1]
  decide

/-- C5: for a DROP TABLE statement naming exactly one table `parserDDLTableNames` returns the
one-element list of that table and no error; for a DROP TABLE statement naming more than one
table it returns the error about multiple tables. -/
theorem parserDDLTableNames_dropTable (env : Env) (sql : String) (ifExists : Bool)
    (tables : List TableName)
    (hparse : env.ParseOneStmt sql = .ok (.DropTableStmt ifExists tables)) :
    (∀ t, tables = [t] →
        parserDDLTableNames env sql = .ok [{ Schema := t.Schema.L, Name := t.Name.L }])
      ∧ (1 < tables.length →
        parserDDLTableNames env sql =
          .error (.error "drop table with multiple tables, may resovle ddl sql failed")) := by
  constructor
  · intro t ht
    subst ht
    simp [parserDDLTableNames, hparse, indexAt, tableOf, genTableName]
  · intro hlen
    have hne : tables.length ≠ 1 := by omega
    simp [parserDDLTableNames, hparse, hne]

/-- C5, at `DROP TABLE test.a` (one table) and `DROP TABLE IF EXISTS test.a, test2.b`
(two tables). -/
theorem parserDDLTableNames_dropTable_witness :
    parserDDLTableNames sampleEnv "DROP TABLE test.a" = .ok [{ Schema := "test", Name := "a" }]
      ∧ parserDDLTableNames sampleEnv "DROP TABLE IF EXISTS test.a, test2.b" =
          .error (.error "drop table with multiple tables, may resovle ddl sql failed") :=
  ⟨(parserDDLTableNames_dropTable sampleEnv "DROP TABLE test.a" false
      [mkTableName "test" "a"] rfl).1 (mkTableName "test" "a") rfl,
   (parserDDLTableNames_dropTable sampleEnv "DROP TABLE IF EXISTS test.a, test2.b" true
      [mkTableName "test" "a", mkTableName "test2" "b"] rfl).2 (by decide)⟩

/-- C6: for an ALTER TABLE statement `parserDDLTableNames` returns the altered table followed
by the new table when the first clause carries a rename-to target, and the altered table
alone when the first clause carries none; it returns two identifiers exactly when the
statement has a first clause and that clause carries a rename-to target. -/
theorem parserDDLTableNames_alterTable (env : Env) (sql : String) (v : AlterTableStmt)
    (hparse : env.ParseOneStmt sql = .ok (.AlterTableStmt v)) :
    (∀ spec0 rest newTable, v.Specs = spec0 :: rest → spec0.NewTable = some newTable →
        parserDDLTableNames env sql = .ok [tableOf v.Table, tableOf newTable])
      ∧ (∀ spec0 rest, v.Specs = spec0 :: rest → spec0.NewTable = none →
        parserDDLTableNames env sql = .ok [tableOf v.Table])
      ∧ ((∃ ids, parserDDLTableNames env sql = .ok ids ∧ ids.length = 2) ↔
        ∃ spec0 rest, v.Specs = spec0 :: rest ∧ spec0.NewTable.isSome = true) := by
  refine ⟨?_, ?_, ?_⟩
  · intro spec0 rest newTable hs hn
    simp [parserDDLTableNames, hparse, hs, hn, indexAt]
  · intro spec0 rest hs hn
    simp [parserDDLTableNames, hparse, hs, hn, indexAt]
  · cases hs : v.Specs with
    | nil => simp [parserDDLTableNames, hparse, hs, indexAt]
    | cons spec0 rest =>
      cases hn : spec0.NewTable with
      | none => simp [parserDDLTableNames, hparse, hs, hn, indexAt]
      | some newTable => simp [parserDDLTableNames, hparse, hs, hn, indexAt]

/-- C6, at `ALTER TABLE test.a RENAME TO test.b` (two identifiers) and
`ALTER TABLE test.a ADD COLUMN c INT` (one identifier). -/
theorem parserDDLTableNames_alterTable_witness :
    parserDDLTableNames sampleEnv "ALTER TABLE test.a RENAME TO test.b" =
        .ok [{ Schema := "test", Name := "a" }, { Schema := "test", Name := "b" }]
      ∧ parserDDLTableNames sampleEnv "ALTER TABLE test.a ADD COLUMN c INT" =
        .ok [{ Schema := "test", Name := "a" }] :=
  ⟨(parserDDLTableNames_alterTable sampleEnv "ALTER TABLE test.a RENAME TO test.b"
      ⟨mkTableName "test" "a", [⟨some (mkTableName "test" "b"), "RENAME TO `test`.`b`"⟩]⟩
      rfl).1 _ _ (mkTableName "test" "b") rfl rfl,
   (parserDDLTableNames_alterTable sampleEnv "ALTER TABLE test.a ADD COLUMN c INT"
      ⟨mkTableName "test" "a", [⟨none, "ADD COLUMN c INT"⟩]⟩ rfl).2.1 _ _ rfl rfl⟩

/-- C7: the extraction table of `parserDDLTableNames` for the kinds other than DROP TABLE
and ALTER TABLE. CREATE DATABASE and DROP DATABASE give one identifier whose schema is the
database name and whose name is empty; CREATE TABLE gives the table, followed by the
referred table iff a LIKE reference is present; TRUNCATE TABLE, CREATE INDEX and DROP INDEX
give the table; RENAME TABLE gives the old table and then the new table; a statement of any
other kind gives an error. The identifier of a table is its lower-case schema and its
lower-case name. -/
theorem parserDDLTableNames_kinds (env : Env) (sql : String) (stmt : StmtNode)
    (hparse : env.ParseOneStmt sql = .ok stmt) :
    match stmt with
    | .CreateDatabaseStmt name =>
      parserDDLTableNames env sql = .ok [{ Schema := name, Name := "" }]
    | .DropDatabaseStmt name =>
      parserDDLTableNames env sql = .ok [{ Schema := name, Name := "" }]
    | .CreateTableStmt table none =>
      parserDDLTableNames env sql = .ok [{ Schema := table.Schema.L, Name := table.Name.L }]
    | .CreateTableStmt table (some referTable) =>
      parserDDLTableNames env sql =
        .ok [{ Schema := table.Schema.L, Name := table.Name.L },
          { Schema := referTable.Schema.L, Name := referTable.Name.L }]
    | .TruncateTableStmt table =>
      parserDDLTableNames env sql = .ok [{ Schema := table.Schema.L, Name := table.Name.L }]
    | .RenameTableStmt oldTable newTable _ =>
      parserDDLTableNames env sql =
        .ok [{ Schema := oldTable.Schema.L, Name := oldTable.Name.L },
          { Schema := newTable.Schema.L, Name := newTable.Name.L }]
    | .CreateIndexStmt table =>
      parserDDLTableNames env sql = .ok [{ Schema := table.Schema.L, Name := table.Name.L }]
    | .DropIndexStmt table =>
      parserDDLTableNames env sql = .ok [{ Schema := table.Schema.L, Name := table.Name.L }]
    | .OtherDDLStmt _ =>
      parserDDLTableNames env sql = .error (.error ("unkown type ddl " ++ sql))
    | .NonDDLStmt _ =>
      parserDDLTableNames env sql = .error (.error ("unkown type ddl " ++ sql))
    | .DropTableStmt _ _ => True
    | .AlterTableStmt _ => True := by
  cases stmt with
  | CreateTableStmt table referTable =>
    cases referTable <;> simp [parserDDLTableNames, hparse, tableOf, genTableName]
  | _ => simp [parserDDLTableNames, hparse, tableOf, genTableName]

/-- C7, at one statement of every kind of the table: the database kinds, CREATE TABLE
without and with LIKE, TRUNCATE TABLE written in upper case (the identifier is the
lower-case form), RENAME TABLE, the two index kinds, and two kinds outside the table. -/
theorem parserDDLTableNames_kinds_witness :
    parserDDLTableNames sampleEnv "CREATE DATABASE d" = .ok [{ Schema := "d", Name := "" }]
      ∧ parserDDLTableNames sampleEnv "DROP DATABASE d" = .ok [{ Schema := "d", Name := "" }]
      ∧ parserDDLTableNames sampleEnv "CREATE TABLE s.t (id INT)" =
        .ok [{ Schema := "s", Name := "t" }]
      ∧ parserDDLTableNames sampleEnv "CREATE TABLE a.t1 LIKE a.ref" =
        .ok [{ Schema := "a", Name := "t1" }, { Schema := "a", Name := "ref" }]
      ∧ parserDDLTableNames sampleEnv "TRUNCATE TABLE A.T" = .ok [{ Schema := "a", Name := "t" }]
      ∧ parserDDLTableNames sampleEnv "RENAME TABLE a.t1 TO a.t2" =
        .ok [{ Schema := "a", Name := "t1" }, { Schema := "a", Name := "t2" }]
      ∧ parserDDLTableNames sampleEnv "CREATE INDEX i ON a.t (c)" =
        .ok [{ Schema := "a", Name := "t" }]
      ∧ parserDDLTableNames sampleEnv "DROP INDEX i ON a.t" = .ok [{ Schema := "a", Name := "t" }]
      ∧ parserDDLTableNames sampleEnv "CREATE VIEW v AS SELECT 1" =
        .error (.error "unkown type ddl CREATE VIEW v AS SELECT 1")
      ∧ parserDDLTableNames sampleEnv "SELECT 1" = .error (.error "unkown type ddl SELECT 1") :=
  ⟨parserDDLTableNames_kinds sampleEnv "CREATE DATABASE d" (.CreateDatabaseStmt "d") rfl,
   parserDDLTableNames_kinds sampleEnv "DROP DATABASE d" (.DropDatabaseStmt "d") rfl,
   parserDDLTableNames_kinds sampleEnv "CREATE TABLE s.t (id INT)"
     (.CreateTableStmt (mkTableName "s" "t") none) rfl,
   parserDDLTableNames_kinds sampleEnv "CREATE TABLE a.t1 LIKE a.ref"
     (.CreateTableStmt (mkTableName "a" "t1") (some (mkTableName "a" "ref"))) rfl,
   parserDDLTableNames_kinds sampleEnv "TRUNCATE TABLE A.T"
     (.TruncateTableStmt ⟨⟨"A", "a"⟩, ⟨"T", "t"⟩⟩) rfl,
   parserDDLTableNames_kinds sampleEnv "RENAME TABLE a.t1 TO a.t2"
     (.RenameTableStmt (mkTableName "a" "t1") (mkTableName "a" "t2")
       [⟨mkTableName "a" "t1", mkTableName "a" "t2"⟩]) rfl,
   parserDDLTableNames_kinds sampleEnv "CREATE INDEX i ON a.t (c)"
     (.CreateIndexStmt (mkTableName "a" "t")) rfl,
   parserDDLTableNames_kinds sampleEnv "DROP INDEX i ON a.t"
     (.DropIndexStmt (mkTableName "a" "t")) rfl,
   parserDDLTableNames_kinds sampleEnv "CREATE VIEW v AS SELECT 1"
     (.OtherDDLStmt "CREATE VIEW v AS SELECT 1") rfl,
   parserDDLTableNames_kinds sampleEnv "SELECT 1" (.NonDDLStmt "SELECT 1") rfl⟩

/-- C10: when the trimmed statement text fails to parse, `resolveDDLSQL` returns the
one-element list holding the trimmed text together with a non-nil error that quotes the
text and the parser's error; the list is not empty. -/
theorem resolveDDLSQL_parse_error (env : Env) (sql : String) (err : String)
    (hparse : env.Parse (trimCtrlChars sql) = .error err) :
    resolveDDLSQL env sql =
        ([trimCtrlChars sql],
          some ("error while parsing sql: " ++ trimCtrlChars sql ++ ", err:" ++ err))
      ∧ (resolveDDLSQL env sql).1 ≠ []
      ∧ (resolveDDLSQL env sql).2 ≠ none := by
  have h : resolveDDLSQL env sql =
      ([trimCtrlChars sql],
        some ("error while parsing sql: " ++ trimCtrlChars sql ++ ", err:" ++ err)) := by
    simp only [resolveDDLSQL, hparse]
  rw [h]
  simp

/-- C10, at a text wrapped in control characters that the sample parser rejects: the text
comes back trimmed, next to the error. -/
theorem resolveDDLSQL_parse_error_witness :
    resolveDDLSQL sampleEnv "\n\tDROP TABLE ,\r\n" =
      (["DROP TABLE ,"], some "error while parsing sql: DROP TABLE ,, err:syntax error") := by
  rw [(resolveDDLSQL_parse_error sampleEnv "\n\tDROP TABLE ,\r\n" "syntax error" rfl).1]
  decide

/-- C3: identity routing. For every statement text that parses and every origin list with a
first element, `genDDLSQL sql origin origin` succeeds and returns the text followed by ";"
for a CREATE DATABASE statement and "USE `schema of origin[0]`; " then the text then ";" for
every other kind. This holds in particular for the list `parserDDLTableNames` returns for
the text, which always has a first element. -/
theorem genDDLSQL_identity (env : Env) (sql : String) (stmt : StmtNode)
    (hparse : env.ParseOneStmt sql = .ok stmt) :
    (∀ o rest, genDDLSQL env sql (o :: rest) (o :: rest) =
        .ok (if stmt.isCreateDatabase then sql ++ ";"
          else "USE `" ++ o.Schema ++ "`; " ++ sql ++ ";"))
      ∧ (∀ ids, parserDDLTableNames env sql = .ok ids →
        ∃ o rest, ids = o :: rest ∧ genDDLSQL env sql ids ids =
          .ok (if stmt.isCreateDatabase then sql ++ ";"
            else "USE `" ++ o.Schema ++ "`; " ++ sql ++ ";")) := by
  have key : ∀ o rest, genDDLSQL env sql (o :: rest) (o :: rest) =
      .ok (if stmt.isCreateDatabase then sql ++ ";"
        else "USE `" ++ o.Schema ++ "`; " ++ sql ++ ";") := by
    intro o rest
    simp only [genDDLSQL, hparse, notNeedRoute_self, addUseDatabase]
    cases stmt.isCreateDatabase <;> simp [indexAt]
  refine ⟨key, ?_⟩
  intro ids hids
  obtain ⟨o, rest, rfl⟩ := parserDDLTableNames_ne_nil env sql ids hids
  exact ⟨o, rest, rfl, key o rest⟩

/-- C3, at `CREATE DATABASE d` and at `CREATE TABLE s.t (id INT)`, each routed to the
identifiers extracted from it. -/
theorem genDDLSQL_identity_witness :
    genDDLSQL sampleEnv "CREATE DATABASE d" [{ Schema := "d", Name := "" }]
        [{ Schema := "d", Name := "" }] = .ok "CREATE DATABASE d;"
      ∧ genDDLSQL sampleEnv "CREATE TABLE s.t (id INT)" [{ Schema := "s", Name := "t" }]
        [{ Schema := "s", Name := "t" }] = .ok "USE `s`; CREATE TABLE s.t (id INT);" :=
  ⟨(genDDLSQL_identity sampleEnv "CREATE DATABASE d" (.CreateDatabaseStmt "d") rfl).1 _ _,
   (genDDLSQL_identity sampleEnv "CREATE TABLE s.t (id INT)"
      (.CreateTableStmt (mkTableName "s" "t") none) rfl).1 _ _⟩

/-- C4 as stated fails: with one origin identifier and two target identifiers the call
returns a USE-prefixed statement, and with two origin identifiers and one target identifier
that differs from the first origin identifier it returns a rewritten statement. -/
theorem genDDLSQL_length_mismatch_counterexample :
    genDDLSQL sampleEnv "TRUNCATE TABLE a.t" [{ Schema := "a", Name := "t" }]
        [{ Schema := "a", Name := "t" }, { Schema := "b", Name := "u" }] =
        .ok "USE `a`; TRUNCATE TABLE a.t;"
      ∧ genDDLSQL sampleEnv "TRUNCATE TABLE a.t"
        [{ Schema := "a", Name := "t" }, { Schema := "x", Name := "y" }]
        [{ Schema := "b", Name := "u" }] = .ok "USE `b`; TRUNCATE TABLE `b`.`u`;" :=
  ⟨rfl, rfl⟩

/-- C4, amended: `genDDLSQL` does not compare the lengths of the two lists. For a text that
parses, when the origin list is the target list followed by further identifiers the call
faults on `targetTableNames[index]` and returns no statement; when the target list is a
non-empty origin list followed by further identifiers the call returns the statement of the
identity routing, the further target identifiers being ignored. -/
theorem genDDLSQL_length_mismatch (env : Env) (sql : String) (stmt : StmtNode)
    (hparse : env.ParseOneStmt sql = .ok stmt) :
    (∀ target e extra, genDDLSQL env sql (target ++ e :: extra) target = .error .panic)
      ∧ (∀ o rest e extra, genDDLSQL env sql (o :: rest) (o :: rest ++ e :: extra) =
        .ok (if stmt.isCreateDatabase then sql ++ ";"
          else "USE `" ++ o.Schema ++ "`; " ++ sql ++ ";")) := by
  constructor
  · intro target e extra
    have h := notNeedRoute_loop_surplus target [] e extra
    simp only [List.nil_append, List.length_nil] at h
    simp only [genDDLSQL, hparse, notNeedRoute, h]
  · intro o rest e extra
    have h := notNeedRoute_loop_agree (o :: rest) [] (e :: extra)
    simp only [List.nil_append, List.length_nil] at h
    simp only [genDDLSQL, hparse, notNeedRoute, h, addUseDatabase]
    cases stmt.isCreateDatabase <;> simp [indexAt]

/-- C4 amended, at `TRUNCATE TABLE a.t`: a fault when the origin list has a surplus
identifier, the identity statement when the target list has one. -/
theorem genDDLSQL_length_mismatch_witness :
    genDDLSQL sampleEnv "TRUNCATE TABLE a.t"
        [{ Schema := "a", Name := "t" }, { Schema := "b", Name := "u" }]
        [{ Schema := "a", Name := "t" }] = .error .panic
      ∧ genDDLSQL sampleEnv "TRUNCATE TABLE a.t" [{ Schema := "a", Name := "t" }]
        [{ Schema := "a", Name := "t" }, { Schema := "b", Name := "u" }] =
        .ok "USE `a`; TRUNCATE TABLE a.t;" :=
  ⟨(genDDLSQL_length_mismatch sampleEnv "TRUNCATE TABLE a.t"
      (.TruncateTableStmt (mkTableName "a" "t")) rfl).1 [{ Schema := "a", Name := "t" }]
      { Schema := "b", Name := "u" } [],
   (genDDLSQL_length_mismatch sampleEnv "TRUNCATE TABLE a.t"
      (.TruncateTableStmt (mkTableName "a" "t")) rfl).2 { Schema := "a", Name := "t" } []
      { Schema := "b", Name := "u" } []⟩

/-- C9 as stated fails: `DROP TABLE test.a` names one table and is not returned unchanged;
the statement comes back with its identifiers quoted. -/
theorem resolveDDLSQL_atomic_drop_counterexample :
    resolveDDLSQL sampleEnv "DROP TABLE test.a" = (["DROP TABLE `test`.`a`"], none)
      ∧ (resolveDDLSQL sampleEnv "DROP TABLE test.a").1 ≠ ["DROP TABLE test.a"] := by
  have h : resolveDDLSQL sampleEnv "DROP TABLE test.a" = (["DROP TABLE `test`.`a`"], none) := by
    decide
  rw [h]
  exact ⟨rfl, by decide⟩

/-- C9, amended: for every single-table DROP TABLE statement `resolveDDLSQL` returns no error
and the one-element list holding the regenerated text "DROP TABLE ", "IF EXISTS " iff the
flag is set, the backquoted schema and a dot iff the schema is non-empty, the backquoted
name; so a statement text that already has this form is returned unchanged as a
single-element list. -/
theorem resolveDDLSQL_atomic_drop (env : Env) (sql : String) (ifExists : Bool) (t : TableName)
    (rest : List StmtNode)
    (hparse : env.Parse (trimCtrlChars sql) = .ok (.DropTableStmt ifExists [t] :: rest)) :
    resolveDDLSQL env sql = ([dropTableSQL (if ifExists then "IF EXISTS " else "") t], none)
      ∧ (sql = dropTableSQL (if ifExists then "IF EXISTS " else "") t →
        resolveDDLSQL env sql = ([sql], none)) := by
  have h : resolveDDLSQL env sql =
      ([dropTableSQL (if ifExists then "IF EXISTS " else "") t], none) := by
    simp only [resolveDDLSQL, hparse, StmtNode.isDDL, foldl_append_singleton]
    simp
  refine ⟨h, ?_⟩
  intro hsql
  rw [h, ← hsql]

/-- C9 amended, at the regenerated text of `DROP TABLE test.a`: it is returned unchanged. -/
theorem resolveDDLSQL_atomic_drop_witness :
    resolveDDLSQL sampleEnv "DROP TABLE `test`.`a`" = (["DROP TABLE `test`.`a`"], none) :=
  (resolveDDLSQL_atomic_drop sampleEnv "DROP TABLE `test`.`a`" false (mkTableName "test" "a")
    [] rfl).2 (by decide)

/-- C11: for every RENAME TABLE statement with pairs P1..Pn (the first statement the parser
returns for the trimmed text), `resolveDDLSQL` returns no error and exactly n statements in
pair order, the i-th being "RENAME TABLE ", the serialised old table of Pi, " TO ", the
serialised new table of Pi. -/
theorem resolveDDLSQL_renameTable (env : Env) (sql : String) (oldTable newTable : TableName)
    (pairs : List TableToTable) (rest : List StmtNode)
    (hparse : env.Parse (trimCtrlChars sql) =
      .ok (.RenameTableStmt oldTable newTable pairs :: rest)) :
    resolveDDLSQL env sql =
        (pairs.map (fun p =>
          "RENAME TABLE " ++ env.tableNameToSQL p.OldTable ++ " TO "
            ++ env.tableNameToSQL p.NewTable), none)
      ∧ (resolveDDLSQL env sql).1.length = pairs.length := by
  have h : resolveDDLSQL env sql =
      (pairs.map (fun p =>
          "RENAME TABLE " ++ env.tableNameToSQL p.OldTable ++ " TO "
            ++ env.tableNameToSQL p.NewTable), none) := by
    simp only [resolveDDLSQL, hparse, StmtNode.isDDL, foldl_append_singleton, renameTableSQL]
    simp
  rw [h]
  simp

/-- C11, at `RENAME TABLE a.t1 TO a.t2`. -/
theorem resolveDDLSQL_renameTable_witness :
    resolveDDLSQL sampleEnv "RENAME TABLE a.t1 TO a.t2" =
      (["RENAME TABLE `a`.`t1` TO `a`.`t2`"], none) := by
  rw [(resolveDDLSQL_renameTable sampleEnv "RENAME TABLE a.t1 TO a.t2" (mkTableName "a" "t1")
    (mkTableName "a" "t2") [⟨mkTableName "a" "t1", mkTableName "a" "t2"⟩] [] rfl).1]
  decide

/-- C12: `resolveDDLSQL` returns the empty list and no error when the parser returns no
statement for the trimmed text, and when the first statement it returns is not a DDL
statement. -/
theorem resolveDDLSQL_empty (env : Env) (sql : String) :
    (env.Parse (trimCtrlChars sql) = .ok [] → resolveDDLSQL env sql = ([], none))
      ∧ (∀ stmt rest, env.Parse (trimCtrlChars sql) = .ok (stmt :: rest) →
        stmt.isDDL = false → resolveDDLSQL env sql = ([], none)) := by
  constructor
  · intro h
    simp only [resolveDDLSQL, h]
  · intro stmt rest h hddl
    simp [resolveDDLSQL, h, hddl]

/-- C12, at a text without any statement and at `SELECT 1`. -/
theorem resolveDDLSQL_empty_witness :
    resolveDDLSQL noStmtEnv "/* nothing */" = ([], none)
      ∧ resolveDDLSQL sampleEnv "SELECT 1" = ([], none) :=
  ⟨(resolveDDLSQL_empty noStmtEnv "/* nothing */").1 rfl,
   (resolveDDLSQL_empty sampleEnv "SELECT 1").2 (.NonDDLStmt "SELECT 1") [] rfl rfl⟩

/-- C13: for every RENAME TABLE statement and all two-element origin and target lists that
differ in some position, `genDDLSQL` returns exactly "RENAME TABLE ", the backquoted schema
and name of target[0], " TO ", the backquoted schema and name of target[1]: no USE prefix,
and nothing of the original statement text. -/
theorem genDDLSQL_renameTable (env : Env) (sql : String) (oldTable newTable : TableName)
    (pairs : List TableToTable) (o0 o1 t0 t1 : Table)
    (hparse : env.ParseOneStmt sql = .ok (.RenameTableStmt oldTable newTable pairs))
    (hdiff : [o0, o1] ≠ [t0, t1]) :
    genDDLSQL env sql [o0, o1] [t0, t1] =
      .ok ("RENAME TABLE `" ++ t0.Schema ++ "`.`" ++ t0.Name ++ "` TO `" ++ t1.Schema
        ++ "`.`" ++ t1.Name ++ "`") := by
  have hroute : notNeedRoute [o0, o1] [t0, t1] = .ok false := by
    rw [notNeedRoute_same_length [o0, o1] [t0, t1] rfl]
    simp only [hdiff, decide_False]
  simp only [genDDLSQL, hparse, hroute, genDDLSQL.rewrite, quoted]
  simp [indexAt, bind, Except.bind, pure, Except.pure, String.ext_iff]

/-- C13, at `RENAME TABLE a.t1 TO a.t2` routed to `[(c,x),(c,y)]`. -/
theorem genDDLSQL_renameTable_witness :
    genDDLSQL sampleEnv "RENAME TABLE a.t1 TO a.t2"
        [{ Schema := "a", Name := "t1" }, { Schema := "a", Name := "t2" }]
        [{ Schema := "c", Name := "x" }, { Schema := "c", Name := "y" }] =
      .ok "RENAME TABLE `c`.`x` TO `c`.`y`" :=
  genDDLSQL_renameTable sampleEnv "RENAME TABLE a.t1 TO a.t2" (mkTableName "a" "t1")
    (mkTableName "a" "t2") [⟨mkTableName "a" "t1", mkTableName "a" "t2"⟩] _ _ _ _ rfl
    (by decide)

/-- C15: for every TRUNCATE TABLE statement whose origin identifier differs from its target
identifier `(s, n)`, `genDDLSQL` returns exactly "USE `s`; TRUNCATE TABLE `s`.`n`;"; the
same holds for all lists for which `notNeedRoute` answers false and whose target list starts
with `(s, n)`. Nothing of the statement text enters the result. -/
theorem genDDLSQL_truncateTable (env : Env) (sql : String) (table : TableName)
    (hparse : env.ParseOneStmt sql = .ok (.TruncateTableStmt table)) :
    (∀ o t : Table, o ≠ t →
        genDDLSQL env sql [o] [t] =
          .ok ("USE `" ++ t.Schema ++ "`; TRUNCATE TABLE `" ++ t.Schema ++ "`.`" ++ t.Name
            ++ "`;"))
      ∧ (∀ origin t rest, notNeedRoute origin (t :: rest) = .ok false →
        genDDLSQL env sql origin (t :: rest) =
          .ok ("USE `" ++ t.Schema ++ "`; TRUNCATE TABLE `" ++ t.Schema ++ "`.`" ++ t.Name
            ++ "`;")) := by
  have key : ∀ origin t rest, notNeedRoute origin (t :: rest) = .ok false →
      genDDLSQL env sql origin (t :: rest) =
        .ok ("USE `" ++ t.Schema ++ "`; TRUNCATE TABLE `" ++ t.Schema ++ "`.`" ++ t.Name
          ++ "`;") := by
    intro origin t rest hroute
    simp only [genDDLSQL, hparse, hroute, genDDLSQL.rewrite, quoted, addUseDatabase]
    simp [indexAt, bind, Except.bind, pure, Except.pure, String.ext_iff]
  refine ⟨?_, key⟩
  intro o t hne
  apply key
  rw [notNeedRoute_same_length [o] [t] rfl]
  simp [hne]

/-- C15, at `TRUNCATE TABLE a.t` routed from `(a,t)` to `(b,u)`. -/
theorem genDDLSQL_truncateTable_witness :
    genDDLSQL sampleEnv "TRUNCATE TABLE a.t" [{ Schema := "a", Name := "t" }]
        [{ Schema := "b", Name := "u" }] = .ok "USE `b`; TRUNCATE TABLE `b`.`u`;" :=
  (genDDLSQL_truncateTable sampleEnv "TRUNCATE TABLE a.t" (mkTableName "a" "t") rfl).1
    { Schema := "a", Name := "t" } { Schema := "b", Name := "u" } (by decide)

/-- C16 as stated fails: routed to identical identifiers, a statement of a kind outside the
dispatch is returned with a USE prefix and no error. -/
theorem genDDLSQL_unknown_kind_counterexample :
    genDDLSQL sampleEnv "CREATE VIEW v AS SELECT 1" [{ Schema := "a", Name := "t" }]
        [{ Schema := "a", Name := "t" }] = .ok "USE `a`; CREATE VIEW v AS SELECT 1;"
      ∧ genDDLSQL sampleEnv "SELECT 1" [{ Schema := "a", Name := "t" }]
        [{ Schema := "a", Name := "t" }] = .ok "USE `a`; SELECT 1;" :=
  ⟨rfl, rfl⟩

/-- C16, amended: for every statement of a kind outside the dispatch, when `notNeedRoute`
answers false for the origin and target lists (some identifier has to be routed),
`genDDLSQL` returns no statement and fails with the error "unkown type ddl " followed by the
statement text; when the lists are equal and non-empty it returns the text with the USE
prefix of the identity routing. -/
theorem genDDLSQL_unknown_kind (env : Env) (sql : String) (stmt : StmtNode) (text : String)
    (hparse : env.ParseOneStmt sql = .ok stmt)
    (hkind : stmt = .OtherDDLStmt text ∨ stmt = .NonDDLStmt text) :
    (∀ origin target, notNeedRoute origin target = .ok false →
        genDDLSQL env sql origin target = .error (.error ("unkown type ddl " ++ sql)))
      ∧ (∀ o rest, genDDLSQL env sql (o :: rest) (o :: rest) =
        .ok ("USE `" ++ o.Schema ++ "`; " ++ sql ++ ";")) := by
  constructor
  · intro origin target hroute
    rcases hkind with h | h <;> subst h <;>
      simp only [genDDLSQL, hparse, hroute, genDDLSQL.rewrite]
  · intro o rest
    rcases hkind with h | h <;> subst h <;>
      simp [genDDLSQL, hparse, notNeedRoute_self, StmtNode.isCreateDatabase, indexAt,
        addUseDatabase]

/-- C16 amended, at `CREATE VIEW v AS SELECT 1` routed from `(a,t)` to `(b,u)`: the error
carries the statement text. -/
theorem genDDLSQL_unknown_kind_witness :
    genDDLSQL sampleEnv "CREATE VIEW v AS SELECT 1" [{ Schema := "a", Name := "t" }]
        [{ Schema := "b", Name := "u" }] =
      .error (.error "unkown type ddl CREATE VIEW v AS SELECT 1") :=
  (genDDLSQL_unknown_kind sampleEnv "CREATE VIEW v AS SELECT 1"
    (.OtherDDLStmt "CREATE VIEW v AS SELECT 1") "CREATE VIEW v AS SELECT 1" rfl
    (Or.inl rfl)).1 _ _ rfl

/-- C14: on the rewrite path (`notNeedRoute` answers false), every statement `genDDLSQL`
returns for CREATE TABLE, DROP TABLE, TRUNCATE TABLE, ALTER TABLE, CREATE INDEX and DROP
INDEX is "USE `schema of target[0]`; " then a body then ";". The statements it returns for
CREATE DATABASE and DROP DATABASE are the bare result of the pattern replacement and the
statement it returns for RENAME TABLE is the bare regenerated RENAME TABLE text: none of
the three is passed through the USE prefix. No other kind returns a statement. -/
theorem genDDLSQL_use_database (env : Env) (sql : String) (stmt : StmtNode)
    (origin target : List Table) (out : String)
    (hparse : env.ParseOneStmt sql = .ok stmt)
    (hroute : notNeedRoute origin target = .ok false)
    (hout : genDDLSQL env sql origin target = .ok out) :
    match stmt with
    | .CreateTableStmt _ _ | .DropTableStmt _ _ | .TruncateTableStmt _ | .AlterTableStmt _
    | .CreateIndexStmt _ | .DropIndexStmt _ =>
      ∃ t0 rest body, target = t0 :: rest ∧ out = "USE `" ++ t0.Schema ++ "`; " ++ body ++ ";"
    | .CreateDatabaseStmt _ =>
      ∃ t0 rest head, target = t0 :: rest ∧
        out = env.createDatabaseRegex.ReplaceAllString sql (head ++ "`" ++ t0.Schema ++ "`")
    | .DropDatabaseStmt _ =>
      ∃ t0 rest head, target = t0 :: rest ∧
        out = env.dropDatabaseRegex.ReplaceAllString sql (head ++ "`" ++ t0.Schema ++ "`")
    | .RenameTableStmt _ _ _ =>
      ∃ t0 t1 rest, target = t0 :: t1 :: rest ∧
        out = "RENAME TABLE " ++ quoted t0 ++ " TO " ++ quoted t1
    | .OtherDDLStmt _ | .NonDDLStmt _ => False := by
  simp only [genDDLSQL, hparse, hroute] at hout
  cases stmt with
  | CreateDatabaseStmt name =>
    simp only [genDDLSQL.rewrite, genDDLSQL.rewriteDatabase] at hout
    cases hw : findLastWord (env.createDatabaseRegex.FindString sql) with
    | error e => simp [hw, bind, Except.bind] at hout
    | ok index =>
      cases hs : sliceTo (env.createDatabaseRegex.FindString sql) index with
      | error e => simp [hw, hs, bind, Except.bind] at hout
      | ok head =>
        cases target with
        | nil => simp [hw, hs, indexAt, bind, Except.bind] at hout
        | cons t0 rest =>
          simp [hw, hs, indexAt, bind, Except.bind, pure, Except.pure] at hout
          exact ⟨t0, rest, head, rfl, hout.symm⟩
  | DropDatabaseStmt name =>
    simp only [genDDLSQL.rewrite, genDDLSQL.rewriteDatabase] at hout
    cases hw : findLastWord (env.dropDatabaseRegex.FindString sql) with
    | error e => simp [hw, bind, Except.bind] at hout
    | ok index =>
      cases hs : sliceTo (env.dropDatabaseRegex.FindString sql) index with
      | error e => simp [hw, hs, bind, Except.bind] at hout
      | ok head =>
        cases target with
        | nil => simp [hw, hs, indexAt, bind, Except.bind] at hout
        | cons t0 rest =>
          simp [hw, hs, indexAt, bind, Except.bind, pure, Except.pure] at hout
          exact ⟨t0, rest, head, rfl, hout.symm⟩
  | CreateTableStmt table referTable =>
    simp only [genDDLSQL.rewrite] at hout
    cases hb : genDDLSQL.rewriteCreateTable env sql origin target with
    | error e => simp [hb, bind, Except.bind] at hout
    | ok body =>
      cases target with
      | nil => simp [hb, indexAt, bind, Except.bind] at hout
      | cons t0 rest =>
        simp [hb, indexAt, bind, Except.bind, pure, Except.pure, addUseDatabase] at hout
        exact ⟨t0, rest, body, rfl, hout.symm⟩
  | DropTableStmt ifExists tables =>
    simp only [genDDLSQL.rewrite] at hout
    cases hb : genDDLSQL.rewriteDropTable env sql target with
    | error e => simp [hb, bind, Except.bind] at hout
    | ok body =>
      cases target with
      | nil => simp [hb, indexAt, bind, Except.bind] at hout
      | cons t0 rest =>
        simp [hb, indexAt, bind, Except.bind, pure, Except.pure, addUseDatabase] at hout
        exact ⟨t0, rest, body, rfl, hout.symm⟩
  | TruncateTableStmt table =>
    simp only [genDDLSQL.rewrite] at hout
    cases target with
    | nil => simp [indexAt, bind, Except.bind] at hout
    | cons t0 rest =>
      simp [indexAt, bind, Except.bind, pure, Except.pure, addUseDatabase] at hout
      exact ⟨t0, rest, _, rfl, hout.symm⟩
  | AlterTableStmt v =>
    simp only [genDDLSQL.rewrite] at hout
    cases hb : genDDLSQL.rewriteAlterTable env sql origin target with
    | error e => simp [hb, bind, Except.bind] at hout
    | ok body =>
      cases target with
      | nil => simp [hb, indexAt, bind, Except.bind] at hout
      | cons t0 rest =>
        simp [hb, indexAt, bind, Except.bind, pure, Except.pure, addUseDatabase] at hout
        exact ⟨t0, rest, body, rfl, hout.symm⟩
  | RenameTableStmt oldTable newTable pairs =>
    simp only [genDDLSQL.rewrite] at hout
    cases target with
    | nil => simp [indexAt, bind, Except.bind] at hout
    | cons t0 rest =>
      cases rest with
      | nil => simp [indexAt, bind, Except.bind] at hout
      | cons t1 rest =>
        simp [indexAt, bind, Except.bind, pure, Except.pure] at hout
        exact ⟨t0, t1, rest, rfl, hout.symm⟩
  | CreateIndexStmt table =>
    simp only [genDDLSQL.rewrite] at hout
    cases target with
    | nil => simp [indexAt, bind, Except.bind] at hout
    | cons t0 rest =>
      simp [indexAt, bind, Except.bind, pure, Except.pure, addUseDatabase] at hout
      exact ⟨t0, rest, _, rfl, hout.symm⟩
  | DropIndexStmt table =>
    simp only [genDDLSQL.rewrite] at hout
    cases target with
    | nil => simp [indexAt, bind, Except.bind] at hout
    | cons t0 rest =>
      simp [indexAt, bind, Except.bind, pure, Except.pure, addUseDatabase] at hout
      exact ⟨t0, rest, _, rfl, hout.symm⟩
  | OtherDDLStmt text => simp [genDDLSQL.rewrite] at hout
  | NonDDLStmt text => simp [genDDLSQL.rewrite] at hout

/-- C14, at `CREATE INDEX i ON a.t (c)` routed from `(a,t)` to `(b,u)`: the statement
returned is `USE` of schema `b`, the rewritten body, and ";". -/
theorem genDDLSQL_use_database_witness :
    ∃ t0 rest body, [({ Schema := "b", Name := "u" } : Table)] = t0 :: rest ∧
      "USE `b`; CREATE INDEX i ON `b`.`u` (c);" = "USE `" ++ t0.Schema ++ "`; " ++ body ++ ";" :=
  genDDLSQL_use_database routeEnv "CREATE INDEX i ON a.t (c)"
    (.CreateIndexStmt (mkTableName "a" "t")) [{ Schema := "a", Name := "t" }]
    [{ Schema := "b", Name := "u" }] "USE `b`; CREATE INDEX i ON `b`.`u` (c);" rfl rfl rfl

/-- C17: when `lackOfReplClientPrivilege` is true, `Status` returns no snapshot. The
variable `masterGTIDSet` is never assigned, so it holds the nil interface value, and the
call `masterGTIDSet.String()` faults; this is so whatever the probe would answer. -/
theorem Status_without_privilege_faults (s : Syncer)
    (hlack : s.lackOfReplClientPrivilege = true) :
    s.Status = .error .panic := by
  simp [Syncer.Status, hlack, GTIDSet.String, bind, Except.bind]

/-- C17, at a syncer without the privilege. -/
theorem Status_without_privilege_faults_witness : sampleSyncer.Status = .error .panic :=
  Status_without_privilege_faults sampleSyncer rfl

/-- C18: on a literal whose last word starts at offset 0 (a non-empty word without a space,
followed by any number of spaces) `findLastWord` does not return 0: its second loop reaches
`index = 0`, reads `literal[index-1]` outside the literal and faults. -/
theorem findLastWord_first_token_faults (word : List Char) (n : Nat) (hne : word ≠ [])
    (hword : ∀ c ∈ word, c ≠ ' ') :
    findLastWord (String.mk (word ++ List.replicate n ' ')) = .error .panic := by
  obtain ⟨w, c, rfl⟩ : ∃ w c, word = w ++ [c] :=
    ⟨word.dropLast, word.getLast hne, (List.dropLast_append_getLast hne).symm⟩
  have hc : c ≠ ' ' := hword c (by simp)
  have hskip := skipSpaces_word w c n hc
  have hscan : findLastWord.scan (w ++ c :: List.replicate n ' ') (w.length + 1) =
      .error .panic := by
    apply scan_faults _ _ (by omega)
    intro i hi
    have hi2 : i < w.length := by omega
    refine ⟨w[i], ?_, hword _ (by simp [List.getElem_mem])⟩
    rw [List.getElem?_append_left hi2, List.getElem?_eq_getElem hi2]
  have hlen : (String.mk (w ++ [c] ++ List.replicate n ' ')).length = w.length + 1 + n := by
    simp [String.length]
    omega
  have htoNat : ((w.length : Int) + 1).toNat = w.length + 1 := by omega
  simp only [findLastWord, hlen]
  simp only [List.append_assoc, List.singleton_append, hskip, htoNat, hscan]

/-- C18, at the literal `abc`. -/
theorem findLastWord_first_token_faults_witness : findLastWord "abc" = .error .panic :=
  findLastWord_first_token_faults ['a', 'b', 'c'] 0 (by decide) (by decide)

/-- C19: `trimCtrlChars s` is `s` without a prefix `p` and a suffix `q` that are made only of
control characters, that is of characters with code point below 32 or equal to 127; the
result neither begins nor ends with such a character, so `p` and `q` are the longest such
prefix and suffix and nothing between them is removed; and trimming twice is trimming
once. -/
theorem trimCtrlChars_spec (s : String) :
    (∃ p q : String, s = p ++ trimCtrlChars s ++ q
        ∧ (∀ c ∈ p.data, c.toNat < 32 ∨ c.toNat = 127)
        ∧ (∀ c ∈ q.data, c.toNat < 32 ∨ c.toNat = 127))
      ∧ (∀ c, (trimCtrlChars s).data.head? = some c → ¬ (c.toNat < 32 ∨ c.toNat = 127))
      ∧ (∀ c, (trimCtrlChars s).data.getLast? = some c → ¬ (c.toNat < 32 ∨ c.toNat = 127))
      ∧ trimCtrlChars (trimCtrlChars s) = trimCtrlChars s := by
  have hctrl : ∀ c : Char, isCtrlChar c = true ↔ (c.toNat < 32 ∨ c.toNat = 127) := by
    intro c
    simp [isCtrlChar]
  refine ⟨?_, ?_, ?_, ?_⟩
  · refine ⟨String.mk (s.data.takeWhile isCtrlChar),
      String.mk ((s.data.dropWhile isCtrlChar).rtakeWhile isCtrlChar), ?_, ?_, ?_⟩
    · apply String.ext
      simp only [String.data_append, trimCtrlChars]
      exact trimFunc_decompose isCtrlChar s.data
    · intro c hc
      exact (hctrl c).mp (List.mem_takeWhile_imp hc)
    · intro c hc
      exact (hctrl c).mp (List.mem_rtakeWhile_imp hc)
  · intro c hc hcc
    have hf := trimFunc_head isCtrlChar s.data c hc
    rw [(hctrl c).mpr hcc] at hf
    exact Bool.noConfusion hf
  · intro c hc hcc
    have hf := trimFunc_getLast isCtrlChar s.data c hc
    rw [(hctrl c).mpr hcc] at hf
    exact Bool.noConfusion hf
  · simp only [trimCtrlChars, trimFunc_idempotent]

/-- C19, at a text that has control characters around and inside it and a space at each
end: only the outer control characters go (line feed, tab, DEL and carriage return are
removed at the ends, the inner tab and the two spaces stay), and the text splits into the
removed prefix, the result and the removed suffix. -/
theorem trimCtrlChars_spec_witness :
    trimCtrlChars "\n\t a\tb \x7f\r\n" = " a\tb "
      ∧ trimCtrlChars "DROP TABLE t" = "DROP TABLE t"
      ∧ ∃ p q : String, "\n\t a\tb \x7f\r\n" = p ++ trimCtrlChars "\n\t a\tb \x7f\r\n" ++ q
        ∧ (∀ c ∈ p.data, c.toNat < 32 ∨ c.toNat = 127)
        ∧ (∀ c ∈ q.data, c.toNat < 32 ∨ c.toNat = 127) :=
  ⟨by decide, by decide, (trimCtrlChars_spec "\n\t a\tb \x7f\r\n").1⟩

/-- C20 as stated fails: `Status` reads the gauge twice, and when the gauge moves from 5 to
6 between the two reads the snapshot has TotalTps 5 and RecentTps 6. -/
theorem Status_recent_eq_total_counterexample :
    busySyncer.Status = .ok
        { TotalEvents := 10, TotalTps := 5, RecentTps := 6,
          MasterBinlog := "(mysql-bin.000002, 120)", MasterBinlogGtid := "uuid:1-9",
          SyncerBinlog := "(mysql-bin.000001, 4)", SyncerBinlogGtid := "uuid:1-5" }
      ∧ (6 : Int) ≠ 5 :=
  ⟨rfl, by decide⟩

/-- C20, amended: in every snapshot `Status` returns, TotalTps is the first read and
RecentTps the second read of the one gauge `totalTps`, so the two fields are equal whenever
the gauge is not updated between the two reads. A snapshot is returned when the privilege
is held and the probe and `meta` give GTID sets. -/
theorem Status_recent_eq_total (s : Syncer) :
    (∀ st, s.Status = .ok st →
        st.TotalTps = s.totalTps 0 ∧ st.RecentTps = s.totalTps 1
          ∧ (s.totalTps 1 = s.totalTps 0 → st.RecentTps = st.TotalTps))
      ∧ (∀ pos text err syncerText, s.lackOfReplClientPrivilege = false →
        s.getMasterStatus = .ok (pos, .set text, err) → s.metaGTID.1 = .set syncerText →
        s.Status = .ok
          { TotalEvents := s.count, TotalTps := s.totalTps 0, RecentTps := s.totalTps 1,
            MasterBinlog := pos.String, MasterBinlogGtid := text,
            SyncerBinlog := s.metaPos.String, SyncerBinlogGtid := syncerText }) := by
  constructor
  · intro st h
    simp only [Syncer.Status, bind, Except.bind, pure, Except.pure] at h
    have key : st.TotalTps = s.totalTps 0 ∧ st.RecentTps = s.totalTps 1 := by
      split at h <;> (repeat' split at h) <;> cases h <;> exact ⟨rfl, rfl⟩
    refine ⟨key.1, key.2, ?_⟩
    intro heq
    rw [key.1, key.2, heq]
  · intro pos text err syncerText hlack hprobe hmeta
    simp [Syncer.Status, hlack, hprobe, hmeta, GTIDSet.String, bind, Except.bind, pure,
      Except.pure]

/-- C20 amended, at a syncer whose gauge stays at 5 during the call: a snapshot is
returned, and both fields are 5. -/
theorem Status_recent_eq_total_witness :
    steadySyncer.Status = .ok
        { TotalEvents := 10, TotalTps := 5, RecentTps := 5,
          MasterBinlog := "(mysql-bin.000002, 120)", MasterBinlogGtid := "uuid:1-9",
          SyncerBinlog := "(mysql-bin.000001, 4)", SyncerBinlogGtid := "uuid:1-5" }
      ∧ (5 : Int) = 5 :=
  ⟨(Status_recent_eq_total steadySyncer).2 _ _ _ _ rfl rfl rfl,
   ((Status_recent_eq_total steadySyncer).1
      { TotalEvents := 10, TotalTps := 5, RecentTps := 5,
        MasterBinlog := "(mysql-bin.000002, 120)", MasterBinlogGtid := "uuid:1-9",
        SyncerBinlog := "(mysql-bin.000001, 4)", SyncerBinlogGtid := "uuid:1-5" } rfl).2.2 rfl⟩

end Syncer
